import Mathlib

/-!
Shallow embedding of `src/app.py`, a Flask backend for a mock interview
application.  The embedding models:

* the session record dictionary created in `start_interview` (lines 43-55),
* the module-level session store `interview_sessions` (a Python dict, modelled
  as an association list whose lookup takes the most recent binding, which is
  observationally equivalent to dict assignment),
* `random.randint(lo, hi)` as a pure function of an arbitrary seed that always
  lands in `[lo, hi]`,
* the four endpoint bodies `start_interview`, `submit_answer`, `get_metrics`,
  `get_report`, with their JSON responses as inductive result types, and
* `generate_pdf_report` (lines 199-271), with the reportlab "story" modelled
  as a list of flowables (paragraphs, spacers, tables).

Python's `datetime.now()` values and the generated session identifier are
passed in as parameters, since they are environment inputs.  Float division in
`avg_score` (line 256) is modelled over `ℚ`; for the integer metric sums that
occur (at most 285) the float comparisons against 90/80/70 agree exactly with
the rational ones, so the model is faithful on all reachable inputs.
-/

/-- One drawn metric triple, the value of the `'metrics'` dict
(lines 50-54 and 99-103 of `src/app.py`). -/
structure Metrics where
  attention : Nat
  positivity : Nat
  confidence : Nat
deriving DecidableEq, Repr

/-- One element of the `'answers'` list (lines 89-93 of `src/app.py`). -/
structure AnswerRecord where
  question : String
  answer : String
  timestamp : String
deriving DecidableEq, Repr

/-- The session record stored in `interview_sessions[session_id]`
(lines 43-55 of `src/app.py`). -/
structure Session where
  job_role : String
  resume_filename : String
  start_time : String
  questions : List String
  answers : List AnswerRecord
  current_question : Nat
  metrics : Metrics
deriving DecidableEq, Repr

/-- The hardcoded question bank (lines 22-26 of `src/app.py`). -/
def INTERVIEW_QUESTIONS : List String :=
  [ "Can you walk me through your experience with the technologies mentioned in your resume?",
    "Describe a challenging project you worked on and how you overcame obstacles.",
    "How do you handle working in a team environment with different personalities?" ]

/-- The module-level dict `interview_sessions` (line 18).  An association
list; lookup returns the most recent binding for a key, so consing a new
binding models Python's `interview_sessions[session_id] = ...`. -/
def Store : Type := List (String × Session)

/-- Dict membership / indexing: first binding for the key wins. -/
def Store.find : Store → String → Option Session
  | [], _ => none
  | (k, v) :: rest, sid => if k = sid then some v else Store.find rest sid

/-- Dict assignment `interview_sessions[sid] = s`. -/
def Store.insert (st : Store) (sid : String) (s : Session) : Store :=
  (sid, s) :: st

/-- `random.randint(lo, hi)` drawn from an arbitrary seed: some value in
`[lo, hi]` (inclusive on both ends, as in Python), chosen by the seed. -/
def randint (lo hi seed : Nat) : Nat := lo + seed % (hi + 1 - lo)

/-- The metric resampling performed at session creation (lines 50-54) and on
every answer submission (lines 99-103): three independent
`random.randint(70, 95)` draws. -/
def sampleMetrics (r1 r2 r3 : Nat) : Metrics :=
  { attention := randint 70 95 r1
    positivity := randint 70 95 r2
    confidence := randint 70 95 r3 }

/-- The JSON body returned by `start_interview` on success (lines 57-63). -/
structure StartResponse where
  success : Bool
  session_id : String
  message : String
  first_question : String
  total_questions : Nat
  status : Nat
deriving DecidableEq, Repr

/-- `start_interview` (lines 28-69 of `src/app.py`).  The generated session
id, the `start_time` timestamp and the three `randint` seeds are parameters.
`questions := INTERVIEW_QUESTIONS` models `INTERVIEW_QUESTIONS.copy()`: in
this value-level embedding a stored list is already independent; the
reference-level content of the copy is modelled separately by
`allocQuestionsCopy` below. -/
def start_interview (st : Store) (job_role resume_filename start_time sid : String)
    (r1 r2 r3 : Nat) : Store × StartResponse :=
  let session : Session :=
    { job_role := job_role
      resume_filename := resume_filename
      start_time := start_time
      questions := INTERVIEW_QUESTIONS
      answers := []
      current_question := 0
      metrics := sampleMetrics r1 r2 r3 }
  (st.insert sid session,
   { success := true
     session_id := sid
     message := "Interview session started successfully"
     first_question := INTERVIEW_QUESTIONS.getD 0 ""
     total_questions := INTERVIEW_QUESTIONS.length
     status := 200 })

/-- The JSON body + HTTP status returned by `submit_answer` (lines 71-131).
`exception` is the generic `except Exception` handler of lines 127-131, which
is reached when `session['questions'][session['current_question']]` raises
`IndexError`. -/
inductive SubmitResult where
  | invalidSession (error : String) (status : Nat)
  | exception (error : String) (status : Nat)
  | complete (message : String) (metrics : Metrics)
      (total_questions total_answers : Nat) (status : Nat)
  | nextQ (next_question : String) (question_number total_questions : Nat)
      (metrics : Metrics) (status : Nat)
deriving DecidableEq, Repr

/-- `submit_answer` (lines 71-131 of `src/app.py`).  The answer timestamp and
the three `randint` seeds are parameters.  The question lookup on line 90 is
evaluated before the `append`, the cursor increment and the metric resampling,
so when it is out of range the handler raises into the `except` block with the
store untouched. -/
def submit_answer (st : Store) (session_id answer_text ts : String)
    (r1 r2 r3 : Nat) : Store × SubmitResult :=
  match st.find session_id with
  | none => (st, .invalidSession "Invalid session ID" 400)
  | some session =>
    match session.questions[session.current_question]? with
    | none => (st, .exception "list index out of range" 500)
    | some q =>
      let session' : Session :=
        { session with
          answers := session.answers ++
            [{ question := q, answer := answer_text, timestamp := ts }]
          current_question := session.current_question + 1
          metrics := sampleMetrics r1 r2 r3 }
      let st' := st.insert session_id session'
      if session'.questions.length ≤ session'.current_question then
        (st', .complete "Interview completed successfully" session'.metrics
          session'.questions.length session'.answers.length 200)
      else
        match session'.questions[session'.current_question]? with
        | none => (st', .exception "list index out of range" 500)
        | some nq =>
          (st', .nextQ nq (session'.current_question + 1)
            session'.questions.length session'.metrics 200)

/-- The JSON body + HTTP status returned by `get_metrics` (lines 164-189). -/
inductive MetricsResult where
  | invalidSession (error : String) (status : Nat)
  | ok (metrics : Metrics) (current_question total_questions : Nat) (status : Nat)
deriving DecidableEq, Repr

/-- `get_metrics` (lines 164-189).  `request.args.get` may yield no value
(`none`); the guard `if not session_id or session_id not in interview_sessions`
also treats the empty string as missing. -/
def get_metrics (st : Store) (session_id : Option String) : MetricsResult :=
  match session_id with
  | none => .invalidSession "Invalid session ID" 400
  | some sid =>
    if sid = "" then .invalidSession "Invalid session ID" 400
    else
      match st.find sid with
      | none => .invalidSession "Invalid session ID" 400
      | some s => .ok s.metrics s.current_question s.questions.length 200

/-- A reportlab flowable appended to the `story` list in
`generate_pdf_report` (lines 199-271): a `Paragraph(text, style)`, a
`Spacer(w, h)`, or a `Table(data)`. -/
inductive Flowable where
  | para (text : String) (style : String)
  | spacer (w h : Nat)
  | table (data : List (List String))
deriving DecidableEq, Repr

/-- The f-string `f"{value}%"` used in the metrics table rows
(lines 227-229). -/
def pct (n : Nat) : String := toString n ++ "%"

/-- `avg_score` (line 256): the arithmetic mean of the three metrics.
Python computes it with float division; over the integer sums occurring here
the comparisons against 90/80/70 coincide with exact rational arithmetic. -/
def avg_score (m : Metrics) : ℚ :=
  ((m.attention : ℚ) + m.positivity + m.confidence) / 3

/-- The assessment-sentence selection of lines 258-265. -/
def assessmentText (avg : ℚ) : String :=
  if avg ≥ 90 then
    "Excellent performance! The candidate demonstrated strong communication skills and relevant experience."
  else if avg ≥ 80 then
    "Good performance! The candidate showed solid understanding and relevant experience."
  else if avg ≥ 70 then
    "Fair performance. The candidate has potential but could benefit from more practice."
  else
    "Needs improvement. The candidate should focus on providing more detailed and specific examples."

/-- The Q&A loop of lines 249-252: `for i, qa in enumerate(session['answers'], 1)`
appends a question paragraph, an answer paragraph and a `Spacer(1, 12)` per
recorded answer; `i` is the 1-based counter. -/
def qaFlowables : Nat → List AnswerRecord → List Flowable
  | _, [] => []
  | i, qa :: rest =>
    .para ("<b>Question " ++ toString i ++ ":</b> " ++ qa.question) "Normal" ::
    .para ("<b>Answer:</b> " ++ qa.answer) "Normal" ::
    .spacer 1 12 ::
    qaFlowables (i + 1) rest

/-- `generate_pdf_report` (lines 199-271), as the `story` list handed to
`doc.build`.  `session['start_time'][:10]` is `String.take 10`. -/
def generate_pdf_report (session : Session) : List Flowable :=
  [ .para "AI Interview Report" "CustomTitle",
    .spacer 1 20,
    .para ("<b>Job Role:</b> " ++ session.job_role) "Normal",
    .para ("<b>Resume:</b> " ++ session.resume_filename) "Normal",
    .para ("<b>Interview Date:</b> " ++ session.start_time.take 10) "Normal",
    .spacer 1 20,
    .para "<b>Performance Metrics:</b>" "Heading2",
    .table [ ["Metric", "Score"],
             ["Attention", pct session.metrics.attention],
             ["Positivity", pct session.metrics.positivity],
             ["Confidence", pct session.metrics.confidence] ],
    .spacer 1 20,
    .para "<b>Interview Questions & Answers:</b>" "Heading2" ]
  ++ qaFlowables 1 session.answers
  ++ [ .para "<b>Overall Assessment:</b>" "Heading2",
       .para (assessmentText (avg_score session.metrics)) "Normal" ]

/-- The outcome of `get_report` (lines 133-162): either the 400 error body or
the `send_file` response carrying the built document and its download name. -/
inductive ReportResult where
  | invalidSession (error : String) (status : Nat)
  | file (flowables : List Flowable) (download_name : String) (status : Nat)
deriving DecidableEq, Repr

/-- `get_report` (lines 133-162).  Same missing/unknown-session guard as
`get_metrics`; on success it builds the document for the session and streams
it under `interview_report_<session_id>.pdf`. -/
def get_report (st : Store) (session_id : Option String) : ReportResult :=
  match session_id with
  | none => .invalidSession "Invalid session ID" 400
  | some sid =>
    if sid = "" then .invalidSession "Invalid session ID" 400
    else
      match st.find sid with
      | none => .invalidSession "Invalid session ID" 400
      | some s =>
        .file (generate_pdf_report s) ("interview_report_" ++ sid ++ ".pdf") 200

/-- The stores reachable through the mutating endpoints, starting from the
empty `interview_sessions` dict: any sequence of `start_interview` and
`submit_answer` calls with arbitrary inputs and seeds (`get_metrics` and
`get_report` never write the store). -/
inductive Reachable : Store → Prop
  | empty : Reachable []
  | step_start (st : Store) (jr rf t sid : String) (r1 r2 r3 : Nat) :
      Reachable st → Reachable (start_interview st jr rf t sid r1 r2 r3).1
  | step_submit (st : Store) (sid ans ts : String) (r1 r2 r3 : Nat) :
      Reachable st → Reachable (submit_answer st sid ans ts r1 r2 r3).1

/-- Each metric field is an integer in `[70, 95]`. -/
def metricsInRange (m : Metrics) : Prop :=
  70 ≤ m.attention ∧ m.attention ≤ 95 ∧
  70 ≤ m.positivity ∧ m.positivity ≤ 95 ∧
  70 ≤ m.confidence ∧ m.confidence ≤ 95

instance (m : Metrics) : Decidable (metricsInRange m) := by
  unfold metricsInRange; infer_instance

/-- The session-record invariant maintained by the endpoints. -/
def SessionInv (s : Session) : Prop :=
  s.answers.length = s.current_question ∧
  s.current_question ≤ s.questions.length ∧
  metricsInRange s.metrics

/-- Every session in the store satisfies `SessionInv`. -/
def StoreInv (st : Store) : Prop :=
  ∀ sid s, st.find sid = some s → SessionInv s

theorem randint_mem (lo hi seed : Nat) (h : lo ≤ hi) :
    lo ≤ randint lo hi seed ∧ randint lo hi seed ≤ hi := by
  unfold randint
  have hpos : 0 < hi + 1 - lo := by omega
  have := Nat.mod_lt seed hpos
  omega

theorem sampleMetrics_range (r1 r2 r3 : Nat) :
    metricsInRange (sampleMetrics r1 r2 r3) := by
  unfold metricsInRange sampleMetrics
  refine ⟨?_, ?_, ?_, ?_, ?_, ?_⟩ <;>
    first
      | exact (randint_mem 70 95 r1 (by omega)).1
      | exact (randint_mem 70 95 r1 (by omega)).2
      | exact (randint_mem 70 95 r2 (by omega)).1
      | exact (randint_mem 70 95 r2 (by omega)).2
      | exact (randint_mem 70 95 r3 (by omega)).1
      | exact (randint_mem 70 95 r3 (by omega)).2

theorem Store.find_insert (st : Store) (sid sid' : String) (s : Session) :
    (st.insert sid s).find sid' = if sid = sid' then some s else st.find sid' := by
  simp [Store.insert, Store.find]

theorem StoreInv.insert (st : Store) (sid : String) (s : Session)
    (hst : StoreInv st) (hs : SessionInv s) : StoreInv (st.insert sid s) := by
  intro sid' s' hfind
  rw [Store.find_insert] at hfind
  by_cases h : sid = sid'
  · simp [h] at hfind; exact hfind ▸ hs
  · simp [h] at hfind; exact hst sid' s' hfind

theorem SessionInv.start (jr rf t : String) (r1 r2 r3 : Nat) :
    SessionInv
      { job_role := jr, resume_filename := rf, start_time := t,
        questions := INTERVIEW_QUESTIONS, answers := [], current_question := 0,
        metrics := sampleMetrics r1 r2 r3 } :=
  ⟨rfl, Nat.zero_le _, sampleMetrics_range r1 r2 r3⟩

theorem StoreInv.step_start (st : Store) (jr rf t sid : String) (r1 r2 r3 : Nat)
    (hst : StoreInv st) : StoreInv (start_interview st jr rf t sid r1 r2 r3).1 :=
  StoreInv.insert st sid _ hst (SessionInv.start jr rf t r1 r2 r3)

theorem StoreInv.step_submit (st : Store) (sid ans ts : String) (r1 r2 r3 : Nat)
    (hst : StoreInv st) : StoreInv (submit_answer st sid ans ts r1 r2 r3).1 := by
  cases hfind : st.find sid with
  | none => simpa [submit_answer, hfind] using hst
  | some session =>
    cases hq : session.questions[session.current_question]? with
    | none => simpa [submit_answer, hfind, hq] using hst
    | some q =>
      have hlt : session.current_question < session.questions.length := by
        by_contra hge
        rw [List.getElem?_eq_none (by omega)] at hq
        exact Option.noConfusion hq
      have hinv : SessionInv session := hst sid session hfind
      have hinv' : SessionInv
          { session with
            answers := session.answers ++ [⟨q, ans, ts⟩]
            current_question := session.current_question + 1
            metrics := sampleMetrics r1 r2 r3 } := by
        refine ⟨?_, ?_, sampleMetrics_range r1 r2 r3⟩
        · simp [hinv.1]
        · simpa using hlt
      have hgoal : (submit_answer st sid ans ts r1 r2 r3).1 =
          st.insert sid
            { session with
              answers := session.answers ++ [⟨q, ans, ts⟩]
              current_question := session.current_question + 1
              metrics := sampleMetrics r1 r2 r3 } := by
        simp only [submit_answer, hfind, hq]
        split
        · rfl
        · split <;> rfl
      rw [hgoal]
      exact StoreInv.insert st sid _ hst hinv'

theorem StoreInv.reachable (st : Store) (h : Reachable st) : StoreInv st := by
  induction h with
  | empty => intro sid s hfind; simp [Store.find] at hfind
  | step_start st jr rf t sid r1 r2 r3 _ ih => exact StoreInv.step_start st jr rf t sid r1 r2 r3 ih
  | step_submit st sid ans ts r1 r2 r3 _ ih => exact StoreInv.step_submit st sid ans ts r1 r2 r3 ih

/-- A concrete store holding one freshly created session, used to instantiate
the reachable-state theorems. -/
def demoStore : Store :=
  (start_interview [] "Backend Engineer" "resume.pdf" "2026-10-12T09:00:00" "s" 1 2 3).1

/-- The session record `demoStore` holds under key `"s"`. -/
def demoSession : Session :=
  { job_role := "Backend Engineer"
    resume_filename := "resume.pdf"
    start_time := "2026-10-12T09:00:00"
    questions := INTERVIEW_QUESTIONS
    answers := []
    current_question := 0
    metrics := sampleMetrics 1 2 3 }

theorem demoStore_reachable : Reachable demoStore :=
  Reachable.step_start [] "Backend Engineer" "resume.pdf" "2026-10-12T09:00:00" "s" 1 2 3
    Reachable.empty

/-- Claim C1: submitting with cursor `i < N` appends the record
`{questions[i], answer_text, timestamp}` to `answers`, advances the cursor to
`i + 1`, resamples the metrics, reports `interview_complete` exactly when
`i + 1 = N`, and otherwise reports the next question `questions[i+1]` with
1-based number `i + 2`. -/
theorem submit_answer_spec (st : Store) (sid ans ts : String) (r1 r2 r3 : Nat)
    (s : Session) (hf : st.find sid = some s)
    (hlt : s.current_question < s.questions.length) :
    (submit_answer st sid ans ts r1 r2 r3).1.find sid = some
      { s with
        answers := s.answers ++
          [⟨s.questions.get ⟨s.current_question, hlt⟩, ans, ts⟩]
        current_question := s.current_question + 1
        metrics := sampleMetrics r1 r2 r3 } ∧
    (s.current_question + 1 = s.questions.length →
      (submit_answer st sid ans ts r1 r2 r3).2 =
        .complete "Interview completed successfully" (sampleMetrics r1 r2 r3)
          s.questions.length (s.answers.length + 1) 200) ∧
    (∀ h2 : s.current_question + 1 < s.questions.length,
      (submit_answer st sid ans ts r1 r2 r3).2 =
        .nextQ (s.questions.get ⟨s.current_question + 1, h2⟩)
          (s.current_question + 2) s.questions.length (sampleMetrics r1 r2 r3) 200) := by
  have hq : s.questions[s.current_question]? =
      some (s.questions.get ⟨s.current_question, hlt⟩) := by
    rw [List.getElem?_eq_getElem hlt]; simp [List.get_eq_getElem]
  refine ⟨?_, ?_, ?_⟩
  · simp only [submit_answer, hf, hq]
    split
    · rw [Store.find_insert]; simp
    · split <;> (rw [Store.find_insert]; simp)
  · intro h1
    simp only [submit_answer, hf, hq]
    split
    · simp
    · omega
  · intro h2
    have hq2 : s.questions[s.current_question + 1]? =
        some (s.questions.get ⟨s.current_question + 1, h2⟩) := by
      rw [List.getElem?_eq_getElem h2]; simp [List.get_eq_getElem]
    simp only [submit_answer, hf, hq]
    split
    · omega
    · rw [hq2]

theorem submit_answer_spec_witness :
    (submit_answer demoStore "s" "I have 5 years of experience" "t1" 4 5 6).1.find "s" = some
      { demoSession with
        answers :=
          [⟨INTERVIEW_QUESTIONS.get ⟨0, by decide⟩, "I have 5 years of experience", "t1"⟩]
        current_question := 1
        metrics := sampleMetrics 4 5 6 } ∧
    (submit_answer demoStore "s" "I have 5 years of experience" "t1" 4 5 6).2 =
      .nextQ (INTERVIEW_QUESTIONS.get ⟨1, by decide⟩) 2 3 (sampleMetrics 4 5 6) 200 := by
  have h := submit_answer_spec demoStore "s" "I have 5 years of experience" "t1" 4 5 6
    demoSession rfl (by decide)
  exact ⟨by simpa using h.1, by simpa using h.2.2 (by decide)⟩

/-- Claim C2: in every reachable store, every stored session has
`answers.length = current_question`. -/
theorem answers_length_eq_cursor (st : Store) (h : Reachable st)
    (sid : String) (s : Session) (hf : st.find sid = some s) :
    s.answers.length = s.current_question :=
  (StoreInv.reachable st h sid s hf).1

theorem answers_length_eq_cursor_witness :
    demoStore.find "s" = some demoSession ∧
    demoSession.answers.length = demoSession.current_question :=
  ⟨rfl, answers_length_eq_cursor demoStore demoStore_reachable "s" demoSession rfl⟩

/-- Claim C3: in every reachable store, every stored session's cursor lies in
`[0, questions.length]`. -/
theorem cursor_in_range (st : Store) (h : Reachable st)
    (sid : String) (s : Session) (hf : st.find sid = some s) :
    0 ≤ s.current_question ∧ s.current_question ≤ s.questions.length :=
  ⟨Nat.zero_le _, (StoreInv.reachable st h sid s hf).2.1⟩

theorem cursor_in_range_witness :
    0 ≤ demoSession.current_question ∧
    demoSession.current_question ≤ demoSession.questions.length :=
  cursor_in_range demoStore demoStore_reachable "s" demoSession rfl

/-- Claim C4: in every reachable store, every stored session's three metric
fields are integers in `[70, 95]`. -/
theorem metrics_in_range (st : Store) (h : Reachable st)
    (sid : String) (s : Session) (hf : st.find sid = some s) :
    metricsInRange s.metrics :=
  (StoreInv.reachable st h sid s hf).2.2

theorem metrics_in_range_witness : metricsInRange demoSession.metrics :=
  metrics_in_range demoStore demoStore_reachable "s" demoSession rfl

/-- Claim C6: session creation returns `bank[0]` as the first question and
`len(bank) = 3` as the total, and stores a record with cursor `0`, empty
answers and freshly sampled metrics. -/
theorem start_interview_spec (st : Store) (jr rf t sid : String) (r1 r2 r3 : Nat) :
    (start_interview st jr rf t sid r1 r2 r3).2.first_question =
      INTERVIEW_QUESTIONS.get ⟨0, by decide⟩ ∧
    (start_interview st jr rf t sid r1 r2 r3).2.total_questions =
      INTERVIEW_QUESTIONS.length ∧
    INTERVIEW_QUESTIONS.length = 3 ∧
    (start_interview st jr rf t sid r1 r2 r3).1.find sid = some
      { job_role := jr, resume_filename := rf, start_time := t,
        questions := INTERVIEW_QUESTIONS, answers := [], current_question := 0,
        metrics := sampleMetrics r1 r2 r3 } := by
  refine ⟨rfl, rfl, rfl, ?_⟩
  simp [start_interview, Store.find_insert]

/-- Claim C7: for a session id absent from the store, submit, metrics and
report all answer the `"Invalid session ID"` / 400 error outcome, and submit
hands back the store unchanged (the read-only endpoints never write it). -/
theorem unknown_session_errors (st : Store) (sid ans ts : String) (r1 r2 r3 : Nat)
    (h : st.find sid = none) :
    submit_answer st sid ans ts r1 r2 r3 =
      (st, .invalidSession "Invalid session ID" 400) ∧
    get_metrics st (some sid) = .invalidSession "Invalid session ID" 400 ∧
    get_report st (some sid) = .invalidSession "Invalid session ID" 400 := by
  refine ⟨by simp [submit_answer, h], ?_, ?_⟩
  · by_cases he : sid = "" <;> simp [get_metrics, h, he]
  · by_cases he : sid = "" <;> simp [get_report, h, he]

theorem unknown_session_errors_witness :
    submit_answer [] "nosuch" "a" "t" 1 2 3 =
      ([], .invalidSession "Invalid session ID" 400) ∧
    get_metrics [] (some "nosuch") = .invalidSession "Invalid session ID" 400 ∧
    get_report [] (some "nosuch") = .invalidSession "Invalid session ID" 400 :=
  unknown_session_errors [] "nosuch" "a" "t" 1 2 3 rfl

/-- A concrete completed session (all three questions answered), used to
instantiate the over-advance theorem. -/
def demoCompleteSession : Session :=
  { job_role := "Backend Engineer"
    resume_filename := "resume.pdf"
    start_time := "2026-10-12T09:00:00"
    questions := INTERVIEW_QUESTIONS
    answers :=
      [⟨INTERVIEW_QUESTIONS.getD 0 "", "a1", "t1"⟩,
       ⟨INTERVIEW_QUESTIONS.getD 1 "", "a2", "t2"⟩,
       ⟨INTERVIEW_QUESTIONS.getD 2 "", "a3", "t3"⟩]
    current_question := 3
    metrics := sampleMetrics 4 5 6 }

/-- Claim C10: submitting to a session whose cursor already equals
`questions.length` fails with the caught-exception outcome (status 500) and
returns the store unchanged: the out-of-range question lookup on line 90
raises before the answer append, the cursor increment and the metric
resample. -/
theorem submit_after_complete_atomic (st : Store) (sid ans ts : String)
    (r1 r2 r3 : Nat) (s : Session) (hf : st.find sid = some s)
    (hc : s.current_question = s.questions.length) :
    submit_answer st sid ans ts r1 r2 r3 =
      (st, .exception "list index out of range" 500) := by
  have hnone : s.questions[s.current_question]? = none :=
    List.getElem?_eq_none (by omega)
  simp [submit_answer, hf, hnone]

theorem submit_after_complete_atomic_witness :
    submit_answer [("sc", demoCompleteSession)] "sc" "late answer" "t4" 7 8 9 =
      ([("sc", demoCompleteSession)], .exception "list index out of range" 500) :=
  submit_after_complete_atomic [("sc", demoCompleteSession)] "sc" "late answer" "t4"
    7 8 9 demoCompleteSession rfl (by decide)

/-- Claim C5: the closing assessment sentence of the report is the last
flowable, it is a pure function of the arithmetic mean of the three metrics,
and the four buckets have boundary-exact thresholds at 90, 80 and 70. -/
theorem assessment_of_mean (session : Session) (q : ℚ) :
    (generate_pdf_report session).getLast? =
      some (.para (assessmentText (avg_score session.metrics)) "Normal") ∧
    (90 ≤ q → assessmentText q =
      "Excellent performance! The candidate demonstrated strong communication skills and relevant experience.") ∧
    (80 ≤ q → q < 90 → assessmentText q =
      "Good performance! The candidate showed solid understanding and relevant experience.") ∧
    (70 ≤ q → q < 80 → assessmentText q =
      "Fair performance. The candidate has potential but could benefit from more practice.") ∧
    (q < 70 → assessmentText q =
      "Needs improvement. The candidate should focus on providing more detailed and specific examples.") := by
  refine ⟨?_, ?_, ?_, ?_, ?_⟩
  · unfold generate_pdf_report
    rw [show ∀ (A B : List Flowable) (x y : Flowable),
          A ++ B ++ [x, y] = (A ++ B ++ [x]) ++ [y] from fun A B x y => by simp,
        List.getLast?_concat]
  · intro h
    unfold assessmentText
    split_ifs <;> first | rfl | linarith
  · intro h1 h2
    unfold assessmentText
    split_ifs <;> first | rfl | linarith
  · intro h1 h2
    unfold assessmentText
    split_ifs <;> first | rfl | linarith
  · intro h
    unfold assessmentText
    split_ifs <;> first | rfl | linarith

theorem assessment_of_mean_witness :
    (generate_pdf_report demoCompleteSession).getLast? =
      some (.para (assessmentText (avg_score demoCompleteSession.metrics)) "Normal") ∧
    assessmentText 80 =
      "Good performance! The candidate showed solid understanding and relevant experience." :=
  ⟨(assessment_of_mean demoCompleteSession 80).1,
   (assessment_of_mean demoCompleteSession 80).2.2.1 (by decide) (by decide)⟩

/-- The tables appearing in a story, in order. -/
def tablesIn : List Flowable → List (List (List String))
  | [] => []
  | .table d :: rest => d :: tablesIn rest
  | _ :: rest => tablesIn rest

theorem tablesIn_append (l r : List Flowable) :
    tablesIn (l ++ r) = tablesIn l ++ tablesIn r := by
  induction l with
  | nil => rfl
  | cons f rest ih => cases f <;> simp [tablesIn, ih]

/-- One step of the Q&A scan over a story.  The state is the pairs collected
so far together with a sliding window of the two previous flowables.  When the
window holds a `"Normal"`-styled paragraph pair and the current flowable is
the `Spacer(1, 12)` the Q&A loop emits after each pair, the pair is recorded;
every other flowable just slides the window. -/
def qaScanStep (st : List (String × String) × Option Flowable × Option Flowable)
    (f : Flowable) : List (String × String) × Option Flowable × Option Flowable :=
  match f with
  | .spacer 1 12 =>
    match st with
    | (acc, some (.para q "Normal"), some (.para a "Normal")) =>
      (acc ++ [(q, a)], some (.para a "Normal"), some (.spacer 1 12))
    | (acc, _, p1) => (acc, p1, some (.spacer 1 12))
  | f => (st.1, st.2.2, some f)

/-- The question/answer paragraph pairs appearing in a story, in order. -/
def pairsOfQA (fs : List Flowable) : List (String × String) :=
  (fs.foldl qaScanStep ([], none, none)).1

theorem qaScanStep_para (st : List (String × String) × Option Flowable × Option Flowable)
    (t s : String) :
    qaScanStep st (.para t s) = (st.1, st.2.2, some (.para t s)) := rfl

theorem qaScanStep_table (st : List (String × String) × Option Flowable × Option Flowable)
    (d : List (List String)) :
    qaScanStep st (.table d) = (st.1, st.2.2, some (.table d)) := rfl

theorem qaScanStep_spacer20 (st : List (String × String) × Option Flowable × Option Flowable) :
    qaScanStep st (.spacer 1 20) = (st.1, st.2.2, some (.spacer 1 20)) := rfl

theorem qaScanStep_emit (acc : List (String × String)) (q a : String) :
    qaScanStep (acc, some (.para q "Normal"), some (.para a "Normal")) (.spacer 1 12) =
      (acc ++ [(q, a)], some (.para a "Normal"), some (.spacer 1 12)) := rfl

theorem qaScan_qaFlowables (l : List AnswerRecord) (n : Nat)
    (acc : List (String × String)) (p2 p1 : Option Flowable) (t x : String) :
    ((qaFlowables n l ++ [Flowable.para t "Heading2", Flowable.para x "Normal"]).foldl
        qaScanStep (acc, p2, p1)).1 =
      acc ++ (l.enumFrom n).map (fun p =>
        ("<b>Question " ++ toString p.1 ++ ":</b> " ++ p.2.question,
         "<b>Answer:</b> " ++ p.2.answer)) := by
  induction l generalizing n acc p2 p1 with
  | nil => simp [qaFlowables, List.foldl_cons, List.foldl_nil, qaScanStep_para]
  | cons qa tl ih =>
    simp only [qaFlowables, List.cons_append, List.foldl_cons, qaScanStep_para,
      qaScanStep_emit, List.enumFrom_cons, List.map_cons]
    rw [ih]
    simp

theorem tablesIn_qaFlowables (n : Nat) (l : List AnswerRecord) :
    tablesIn (qaFlowables n l) = [] := by
  induction l generalizing n with
  | nil => rfl
  | cons qa tl ih => simp [qaFlowables, tablesIn, ih]

/-- Claim C8: for a session with `k` recorded answers, the report contains
exactly `k` question/answer pairs, numbered from 1 in submission order, and a
single metrics table whose data is the `{"Metric","Score"}` header row plus
exactly three metric rows with integer-percentage values. -/
theorem report_contents (session : Session) :
    tablesIn (generate_pdf_report session) =
      [[ ["Metric", "Score"],
         ["Attention", pct session.metrics.attention],
         ["Positivity", pct session.metrics.positivity],
         ["Confidence", pct session.metrics.confidence] ]] ∧
    pairsOfQA (generate_pdf_report session) =
      (session.answers.enumFrom 1).map (fun p =>
        ("<b>Question " ++ toString p.1 ++ ":</b> " ++ p.2.question,
         "<b>Answer:</b> " ++ p.2.answer)) ∧
    (pairsOfQA (generate_pdf_report session)).length = session.answers.length := by
  have hpairs : pairsOfQA (generate_pdf_report session) =
      (session.answers.enumFrom 1).map (fun p =>
        ("<b>Question " ++ toString p.1 ++ ":</b> " ++ p.2.question,
         "<b>Answer:</b> " ++ p.2.answer)) := by
    unfold pairsOfQA generate_pdf_report
    rw [List.append_assoc, List.foldl_append]
    simp only [List.foldl_cons, List.foldl_nil, qaScanStep_para, qaScanStep_table,
      qaScanStep_spacer20]
    rw [qaScan_qaFlowables]
    simp
  refine ⟨?_, hpairs, by rw [hpairs]; simp⟩
  simp [generate_pdf_report, tablesIn_append, tablesIn,
    tablesIn_qaFlowables 1 session.answers]

/-- Reference-level model of Python list objects for line 47 of `src/app.py`:
a heap of list objects indexed by reference.  The module-level
`INTERVIEW_QUESTIONS` object lives at `bankRef`. -/
def bankRef : Nat := 0

/-- The heap at module load: only the question bank object exists. -/
def initHeap : List (List String) := [INTERVIEW_QUESTIONS]

/-- `'questions': INTERVIEW_QUESTIONS.copy()` (line 47) at the reference
level: allocates a fresh list object holding the bank's current contents and
returns its reference, which the new session record stores. -/
def allocQuestionsCopy (heap : List (List String)) : List (List String) × Nat :=
  (heap ++ [heap.getD bankRef []], heap.length)

/-- In-place mutation `lst[i] = v` of the list object at reference `r`. -/
def setQuestionAt (heap : List (List String)) (r i : Nat) (v : String) :
    List (List String) :=
  heap.set r ((heap.getD r []).set i v)

theorem setQuestionAt_getD_ne (h : List (List String)) (r i k : Nat) (v : String)
    (hrk : r ≠ k) : (setQuestionAt h r i v).getD k [] = h.getD k [] := by
  rw [setQuestionAt, List.getD_eq_getElem?_getD, List.getElem?_set_ne hrk,
    ← List.getD_eq_getElem?_getD]

/-- Claim C9: the sessions created by `start_interview` hold distinct fresh
copies of the question bank.  After two allocations both new references differ
from each other and from the bank's, both copies read back the bank's
contents, and mutating either session's list changes neither the other
session's list nor the bank. -/
theorem questions_copy_independent (heap h1 h2 : List (List String)) (r1 r2 : Nat)
    (hbank : bankRef < heap.length)
    (e1 : allocQuestionsCopy heap = (h1, r1))
    (e2 : allocQuestionsCopy h1 = (h2, r2)) (i j : Nat) (v w : String) :
    r1 ≠ bankRef ∧ r2 ≠ bankRef ∧ r1 ≠ r2 ∧
    h2.getD r1 [] = heap.getD bankRef [] ∧
    h2.getD r2 [] = heap.getD bankRef [] ∧
    (setQuestionAt h2 r1 i v).getD r2 [] = h2.getD r2 [] ∧
    (setQuestionAt h2 r1 i v).getD bankRef [] = h2.getD bankRef [] ∧
    (setQuestionAt h2 r2 j w).getD r1 [] = h2.getD r1 [] ∧
    (setQuestionAt h2 r2 j w).getD bankRef [] = h2.getD bankRef [] := by
  have hb0 : bankRef = 0 := rfl
  rw [hb0] at hbank
  unfold allocQuestionsCopy at e1 e2
  cases e1
  cases e2
  refine ⟨by simp only [hb0]; omega, by simp [hb0],
          by simp, ?_, ?_, ?_, ?_, ?_, ?_⟩
  · rw [List.getD_eq_getElem?_getD, List.getElem?_append_left (by simp),
      List.getElem?_concat_length]
    rfl
  · rw [List.getD_eq_getElem?_getD, List.getElem?_concat_length]
    show (heap ++ [heap.getD bankRef []]).getD bankRef [] = heap.getD bankRef []
    rw [List.getD_eq_getElem?_getD, List.getElem?_append_left (hb0 ▸ hbank),
      ← List.getD_eq_getElem?_getD]
  · exact setQuestionAt_getD_ne _ _ i _ v (by simp)
  · exact setQuestionAt_getD_ne _ _ i _ v (by simp only [hb0]; omega)
  · exact setQuestionAt_getD_ne _ _ j _ w (by simp)
  · exact setQuestionAt_getD_ne _ _ j _ w (by simp [hb0])

theorem questions_copy_independent_witness :
    (1 : Nat) ≠ bankRef ∧ (2 : Nat) ≠ bankRef ∧ (1 : Nat) ≠ 2 ∧
    List.getD [INTERVIEW_QUESTIONS, INTERVIEW_QUESTIONS, INTERVIEW_QUESTIONS] 1 [] =
      initHeap.getD bankRef [] ∧
    List.getD [INTERVIEW_QUESTIONS, INTERVIEW_QUESTIONS, INTERVIEW_QUESTIONS] 2 [] =
      initHeap.getD bankRef [] ∧
    (setQuestionAt [INTERVIEW_QUESTIONS, INTERVIEW_QUESTIONS, INTERVIEW_QUESTIONS]
        1 0 "X").getD 2 [] =
      List.getD [INTERVIEW_QUESTIONS, INTERVIEW_QUESTIONS, INTERVIEW_QUESTIONS] 2 [] ∧
    (setQuestionAt [INTERVIEW_QUESTIONS, INTERVIEW_QUESTIONS, INTERVIEW_QUESTIONS]
        1 0 "X").getD bankRef [] =
      List.getD [INTERVIEW_QUESTIONS, INTERVIEW_QUESTIONS, INTERVIEW_QUESTIONS] bankRef [] ∧
    (setQuestionAt [INTERVIEW_QUESTIONS, INTERVIEW_QUESTIONS, INTERVIEW_QUESTIONS]
        2 1 "Y").getD 1 [] =
      List.getD [INTERVIEW_QUESTIONS, INTERVIEW_QUESTIONS, INTERVIEW_QUESTIONS] 1 [] ∧
    (setQuestionAt [INTERVIEW_QUESTIONS, INTERVIEW_QUESTIONS, INTERVIEW_QUESTIONS]
        2 1 "Y").getD bankRef [] =
      List.getD [INTERVIEW_QUESTIONS, INTERVIEW_QUESTIONS, INTERVIEW_QUESTIONS] bankRef [] :=
  questions_copy_independent initHeap
    [INTERVIEW_QUESTIONS, INTERVIEW_QUESTIONS]
    [INTERVIEW_QUESTIONS, INTERVIEW_QUESTIONS, INTERVIEW_QUESTIONS]
    1 2 (by decide) rfl rfl 0 1 "X" "Y"
